import Mathlib

/-!
# WS2812 status widget (`modules/zmk-ws2812-driver/src/widget.c`)

A shallow embedding of the status-indicator widget: colour policy, the blink
pattern queue, the event listeners, the pattern executor and the start-up
thread.  Every C function is a Lean function of the same name over an explicit
`widget_state`; build-time `CONFIG_*` symbols are fields of `widget_config`;
the values returned by the surrounding firmware (battery sensor, LED strip
driver, BLE and keymap queries) are fields of `widget_env`.
-/

namespace Ws2812Widget

/-! ## Data model -/

/-- Zephyr `struct led_rgb`: three 8-bit channels. -/
structure led_rgb where
  r : Nat
  g : Nat
  b : Nat
deriving DecidableEq, Repr

/-- The C `struct blink_pattern` (`duration_ms`, `pause_ms` are `uint16_t`,
`repeat_count` is `uint8_t`). -/
structure blink_pattern where
  color : led_rgb
  duration_ms : Nat
  pause_ms : Nat
  repeat_count : Nat
deriving DecidableEq, Repr

/-- ZMK `enum zmk_transport` as far as `indicate_connectivity_internal`
tells its values apart: the `ZMK_TRANSPORT_USB` case and the `default` case. -/
inductive zmk_transport where
  | ZMK_TRANSPORT_USB
  | ZMK_TRANSPORT_BLE
deriving DecidableEq, Repr

/-- ZMK `enum zmk_activity_state`. -/
inductive zmk_activity_state where
  | ZMK_ACTIVITY_ACTIVE
  | ZMK_ACTIVITY_IDLE
  | ZMK_ACTIVITY_SLEEP
deriving DecidableEq, Repr

/-- The events the widget subscribes to.  A battery event carries its
`state_of_charge`, an activity event carries its `state`; the widget reads no
payload of the other events. -/
inductive zmk_event where
  | zmk_battery_state_changed (state_of_charge : Nat)
  | zmk_endpoint_changed
  | zmk_ble_active_profile_changed
  | zmk_split_peripheral_status_changed
  | zmk_layer_state_changed
  | zmk_activity_state_changed (state : zmk_activity_state)
deriving DecidableEq, Repr

/-- Build-time configuration: every `CONFIG_*` symbol and devicetree property
that `widget.c` reads.  Feature switches (`IS_ENABLED`) are booleans, colours
are packed `0xRRGGBB` values, thresholds are Kconfig integers, times are in
milliseconds. -/
structure widget_config where
  num_pixels : Nat
  CONFIG_ZMK_BATTERY_REPORTING : Bool
  CONFIG_WS2812_WIDGET_SHOW_BATTERY : Bool
  CONFIG_WS2812_WIDGET_SHOW_CONNECTIVITY : Bool
  CONFIG_WS2812_WIDGET_SHOW_LAYER_CHANGE : Bool
  CONFIG_WS2812_WIDGET_CONN_SHOW_USB : Bool
  CONFIG_ZMK_SPLIT : Bool
  CONFIG_ZMK_SPLIT_ROLE_CENTRAL : Bool
  CONFIG_ZMK_SPLIT_BLE : Bool
  CONFIG_ZMK_BLE : Bool
  CONFIG_WS2812_WIDGET_COLOR_OFF : Nat
  CONFIG_WS2812_WIDGET_COLOR_WHITE : Nat
  CONFIG_WS2812_WIDGET_BATTERY_LEVEL_HIGH : Int
  CONFIG_WS2812_WIDGET_BATTERY_LEVEL_LOW : Int
  CONFIG_WS2812_WIDGET_BATTERY_LEVEL_CRITICAL : Int
  CONFIG_WS2812_WIDGET_BATTERY_COLOR_HIGH : Nat
  CONFIG_WS2812_WIDGET_BATTERY_COLOR_MEDIUM : Nat
  CONFIG_WS2812_WIDGET_BATTERY_COLOR_LOW : Nat
  CONFIG_WS2812_WIDGET_BATTERY_COLOR_CRITICAL : Nat
  CONFIG_WS2812_WIDGET_CONN_COLOR_USB : Nat
  CONFIG_WS2812_WIDGET_CONN_COLOR_CONNECTED : Nat
  CONFIG_WS2812_WIDGET_CONN_COLOR_ADVERTISING : Nat
  CONFIG_WS2812_WIDGET_CONN_COLOR_DISCONNECTED : Nat
  CONFIG_WS2812_WIDGET_LAYER_0_COLOR : Nat
  CONFIG_WS2812_WIDGET_LAYER_1_COLOR : Nat
  CONFIG_WS2812_WIDGET_LAYER_2_COLOR : Nat
  CONFIG_WS2812_WIDGET_LAYER_3_COLOR : Nat
  CONFIG_WS2812_WIDGET_LAYER_4_COLOR : Nat
  CONFIG_WS2812_WIDGET_LAYER_5_COLOR : Nat
  CONFIG_WS2812_WIDGET_LAYER_6_COLOR : Nat
  CONFIG_WS2812_WIDGET_BATTERY_BLINK_MS : Nat
  CONFIG_WS2812_WIDGET_CONN_BLINK_MS : Nat
  CONFIG_WS2812_WIDGET_INTERVAL_MS : Nat
  CONFIG_WS2812_WIDGET_LAYER_DEBOUNCE_MS : Nat

/-- What the rest of the firmware answers while one widget function runs.
`led_strip_update_rgb n` is the return code of the strip write that is
preceded by `n` earlier writes, `zmk_battery_state_of_charge n` the reading
returned by the sensor call that is preceded by `n` earlier calls; the other
fields are the answers of the corresponding ZMK queries. -/
structure widget_env where
  device_is_ready : Bool
  led_strip_update_rgb : Nat → Int
  zmk_battery_state_of_charge : Nat → Nat
  zmk_endpoints_selected_transport : zmk_transport
  zmk_ble_active_profile_index : Nat
  zmk_ble_active_profile_is_connected : Bool
  zmk_ble_active_profile_is_open : Bool
  zmk_split_bt_peripheral_is_connected : Bool
  zmk_keymap_highest_layer_active : Nat

/-- The widget's mutable state and its observable effects.

* `initialized`, `current_color`: the two file-level statics;
* `led_msgq`: contents of the message queue, oldest first;
* `indicate_connectivity_work`, `layer_indicate_work`: the two delayable work
  items, `some d` when scheduled to run after `d` ms, `none` when idle;
* `writes`: the pixel buffers handed to `led_strip_update_rgb`, in order;
* `sleeps`: the arguments of the `k_sleep` calls, in order;
* `battery_reads`: how many times the battery sensor has been read. -/
structure widget_state where
  initialized : Bool
  current_color : led_rgb
  led_msgq : List blink_pattern
  indicate_connectivity_work : Option Nat
  layer_indicate_work : Option Nat
  writes : List (List led_rgb)
  sleeps : List Nat
  battery_reads : Nat
deriving DecidableEq, Repr

/-- State at boot: statics zero-initialised, queue empty, no work scheduled. -/
def boot_state : widget_state :=
  { initialized := false
    current_color := ⟨0, 0, 0⟩
    led_msgq := []
    indicate_connectivity_work := none
    layer_indicate_work := none
    writes := []
    sleeps := []
    battery_reads := 0 }

/-! ## Primitives -/

/-- Conversion to `uint8_t`. -/
def to_u8 (x : Nat) : Nat := x % 256

/-- Conversion to `uint16_t`. -/
def to_u16 (x : Nat) : Nat := x % 65536

/-- C `hex_to_rgb`. -/
def hex_to_rgb (hex_color : Nat) : led_rgb :=
  { r := (hex_color >>> 16) &&& 0xFF
    g := (hex_color >>> 8) &&& 0xFF
    b := hex_color &&& 0xFF }

/-- The colour literal `(struct led_rgb){0, 0, 0}`. -/
def rgb_off : led_rgb := ⟨0, 0, 0⟩

/-- The call `k_sleep(K_MSEC(ms))`. -/
def k_sleep (ms : Nat) (s : widget_state) : widget_state :=
  { s with sleeps := s.sleeps ++ [ms] }

/-- Capacity of `led_msgq` (`K_MSGQ_DEFINE(led_msgq, ..., 16, 1)`). -/
def led_msgq_max_msgs : Nat := 16

/-- The call `k_msgq_put(&led_msgq, &pattern, K_NO_WAIT)`: appends unless the queue is
full, in which case the message is dropped. -/
def k_msgq_put (pattern : blink_pattern) (s : widget_state) : widget_state :=
  if s.led_msgq.length < led_msgq_max_msgs then
    { s with led_msgq := s.led_msgq ++ [pattern] }
  else s

/-- C `set_leds_color`: fills a buffer of `num_pixels` copies of `color`,
hands it to the strip driver, and records `color` in `current_color` only
when the driver returns 0.  Returns the driver's code and the new state. -/
def set_leds_color (env : widget_env) (cfg : widget_config) (color : led_rgb)
    (s : widget_state) : Int × widget_state :=
  let pixels := List.replicate cfg.num_pixels color
  let rc := env.led_strip_update_rgb s.writes.length
  let s := { s with writes := s.writes ++ [pixels] }
  if rc = 0 then (rc, { s with current_color := color }) else (rc, s)

/-- One pass through the body of the `for` loop of `execute_blink_pattern`. -/
def execute_blink_body (env : widget_env) (cfg : widget_config)
    (pattern : blink_pattern) (s : widget_state) : widget_state :=
  let s := (set_leds_color env cfg pattern.color s).2
  let s := k_sleep pattern.duration_ms s
  if pattern.pause_ms > 0 then
    let s := (set_leds_color env cfg rgb_off s).2
    k_sleep pattern.pause_ms s
  else s

/-- C `execute_blink_pattern`: the body is run for `i = 0, ..., repeat_count - 1`. -/
def execute_blink_pattern (env : widget_env) (cfg : widget_config)
    (pattern : blink_pattern) (s : widget_state) : widget_state :=
  (List.range pattern.repeat_count).foldl
    (fun s _ => execute_blink_body env cfg pattern s) s

/-! ## Battery indication -/

/-- The condition `#if IS_ENABLED(CONFIG_ZMK_BATTERY_REPORTING) &&
IS_ENABLED(CONFIG_WS2812_WIDGET_SHOW_BATTERY)`. -/
def battery_enabled (cfg : widget_config) : Bool :=
  cfg.CONFIG_ZMK_BATTERY_REPORTING && cfg.CONFIG_WS2812_WIDGET_SHOW_BATTERY

/-- C `get_battery_color`. -/
def get_battery_color (cfg : widget_config) (battery_level : Nat) : led_rgb :=
  if battery_level = 0 then
    hex_to_rgb cfg.CONFIG_WS2812_WIDGET_COLOR_OFF
  else if (battery_level : Int) ≥ cfg.CONFIG_WS2812_WIDGET_BATTERY_LEVEL_HIGH then
    hex_to_rgb cfg.CONFIG_WS2812_WIDGET_BATTERY_COLOR_HIGH
  else if (battery_level : Int) ≥ cfg.CONFIG_WS2812_WIDGET_BATTERY_LEVEL_LOW then
    hex_to_rgb cfg.CONFIG_WS2812_WIDGET_BATTERY_COLOR_MEDIUM
  else if (battery_level : Int) ≤ cfg.CONFIG_WS2812_WIDGET_BATTERY_LEVEL_CRITICAL then
    hex_to_rgb cfg.CONFIG_WS2812_WIDGET_BATTERY_COLOR_CRITICAL
  else
    hex_to_rgb cfg.CONFIG_WS2812_WIDGET_BATTERY_COLOR_LOW

/-- The call `zmk_battery_state_of_charge()`: the next reading of the sensor. -/
def zmk_battery_state_of_charge (env : widget_env) (s : widget_state) :
    Nat × widget_state :=
  (env.zmk_battery_state_of_charge s.battery_reads,
   { s with battery_reads := s.battery_reads + 1 })

/-- The loop `while (battery_level == 0 && retry++ < 10) { k_sleep(100);
battery_level = zmk_battery_state_of_charge(); }` of `ws2812_indicate_battery`,
entered with the given values of the locals.  Returns the locals
`battery_level` and `retry` on exit, and the state.  `retry++` is evaluated
only when `battery_level == 0`, and increments also when the test fails. -/
def battery_retry_loop (env : widget_env) (battery_level retry : Nat)
    (s : widget_state) : Nat × Nat × widget_state :=
  if battery_level = 0 then
    if h : retry < 10 then
      let s := k_sleep 100 s
      let r := zmk_battery_state_of_charge env s
      battery_retry_loop env r.1 (retry + 1) r.2
    else (battery_level, retry + 1, s)
  else (battery_level, retry, s)
termination_by 10 - retry
decreasing_by omega

/-- The first statements of `ws2812_indicate_battery`, up to the end of the
`while` loop: the initial read, `retry = 0`, the loop.  Returns the final
`battery_level` and the state. -/
def ws2812_indicate_battery_read (env : widget_env) (s : widget_state) :
    Nat × widget_state :=
  let r := zmk_battery_state_of_charge env s
  let l := battery_retry_loop env r.1 0 r.2
  (l.1, l.2.2)

/-- C `ws2812_indicate_battery`. -/
def ws2812_indicate_battery (env : widget_env) (cfg : widget_config)
    (s : widget_state) : widget_state :=
  let l := ws2812_indicate_battery_read env s
  let battery_level := l.1
  let pattern : blink_pattern :=
    { color := get_battery_color cfg battery_level
      duration_ms := to_u16 cfg.CONFIG_WS2812_WIDGET_BATTERY_BLINK_MS
      pause_ms := to_u16 cfg.CONFIG_WS2812_WIDGET_INTERVAL_MS
      repeat_count := 3 }
  k_msgq_put pattern l.2

/-- C `led_battery_listener_cb`, applied to the `state_of_charge` of the
battery event it is subscribed to. -/
def led_battery_listener_cb (cfg : widget_config) (state_of_charge : Nat)
    (s : widget_state) : widget_state :=
  if !s.initialized then s
  else
    let battery_level := state_of_charge
    if battery_level > 0 ∧
        (battery_level : Int) ≤ cfg.CONFIG_WS2812_WIDGET_BATTERY_LEVEL_CRITICAL then
      let pattern : blink_pattern :=
        { color := hex_to_rgb cfg.CONFIG_WS2812_WIDGET_BATTERY_COLOR_CRITICAL
          duration_ms := to_u16 cfg.CONFIG_WS2812_WIDGET_BATTERY_BLINK_MS
          pause_ms := to_u16 cfg.CONFIG_WS2812_WIDGET_BATTERY_BLINK_MS
          repeat_count := 5 }
      k_msgq_put pattern s
    else s

/-! ## Connectivity indication -/

/-- The condition
`#if !IS_ENABLED(CONFIG_ZMK_SPLIT) || IS_ENABLED(CONFIG_ZMK_SPLIT_ROLE_CENTRAL)`. -/
def non_split_or_central (cfg : widget_config) : Bool :=
  !cfg.CONFIG_ZMK_SPLIT || cfg.CONFIG_ZMK_SPLIT_ROLE_CENTRAL

/-- The default-case body of the `switch` in `indicate_connectivity_internal`
(present only under `CONFIG_ZMK_BLE`), applied to the local `pattern`. -/
def connectivity_ble_case (env : widget_env) (cfg : widget_config)
    (pattern : blink_pattern) : blink_pattern :=
  if cfg.CONFIG_ZMK_BLE then
    let profile_index := to_u8 env.zmk_ble_active_profile_index
    if env.zmk_ble_active_profile_is_connected then
      { pattern with
        color := hex_to_rgb cfg.CONFIG_WS2812_WIDGET_CONN_COLOR_CONNECTED
        repeat_count := to_u8 (profile_index + 1) }
    else if env.zmk_ble_active_profile_is_open then
      { pattern with
        color := hex_to_rgb cfg.CONFIG_WS2812_WIDGET_CONN_COLOR_ADVERTISING
        repeat_count := to_u8 (profile_index + 1) }
    else
      { pattern with
        color := hex_to_rgb cfg.CONFIG_WS2812_WIDGET_CONN_COLOR_DISCONNECTED
        repeat_count := to_u8 (profile_index + 1) }
  else pattern

/-- The value of the local `pattern` of `indicate_connectivity_internal` when
it is handed to `k_msgq_put`.  The designated initialiser leaves `color`
zeroed.  Without `CONFIG_WS2812_WIDGET_CONN_SHOW_USB` the `ZMK_TRANSPORT_USB`
label has no body of its own and shares the default case. -/
def connectivity_pattern (env : widget_env) (cfg : widget_config) : blink_pattern :=
  let pattern : blink_pattern :=
    { color := ⟨0, 0, 0⟩
      duration_ms := to_u16 cfg.CONFIG_WS2812_WIDGET_CONN_BLINK_MS
      pause_ms := to_u16 cfg.CONFIG_WS2812_WIDGET_INTERVAL_MS
      repeat_count := 1 }
  if non_split_or_central cfg then
    match env.zmk_endpoints_selected_transport with
    | zmk_transport.ZMK_TRANSPORT_USB =>
      if cfg.CONFIG_WS2812_WIDGET_CONN_SHOW_USB then
        { pattern with color := hex_to_rgb cfg.CONFIG_WS2812_WIDGET_CONN_COLOR_USB }
      else connectivity_ble_case env cfg pattern
    | zmk_transport.ZMK_TRANSPORT_BLE => connectivity_ble_case env cfg pattern
  else if cfg.CONFIG_ZMK_SPLIT_BLE then
    if env.zmk_split_bt_peripheral_is_connected then
      { pattern with color := hex_to_rgb cfg.CONFIG_WS2812_WIDGET_CONN_COLOR_CONNECTED }
    else
      { pattern with color := hex_to_rgb cfg.CONFIG_WS2812_WIDGET_CONN_COLOR_DISCONNECTED }
  else pattern

/-- C `indicate_connectivity_internal`. -/
def indicate_connectivity_internal (env : widget_env) (cfg : widget_config)
    (s : widget_state) : widget_state :=
  k_msgq_put (connectivity_pattern env cfg) s

/-- C `led_output_listener_cb`. -/
def led_output_listener_cb (env : widget_env) (cfg : widget_config)
    (s : widget_state) : widget_state :=
  if s.initialized then indicate_connectivity_internal env cfg s else s

/-- C `ws2812_indicate_connectivity`:
`k_work_reschedule(&indicate_connectivity_work, K_MSEC(16))`. -/
def ws2812_indicate_connectivity (s : widget_state) : widget_state :=
  { s with indicate_connectivity_work := some 16 }

/-- C `indicate_connectivity_cb`, run by the work queue when
`indicate_connectivity_work` expires; nothing happens while it is idle. -/
def indicate_connectivity_cb (env : widget_env) (cfg : widget_config)
    (s : widget_state) : widget_state :=
  match s.indicate_connectivity_work with
  | none => s
  | some _ =>
    indicate_connectivity_internal env cfg { s with indicate_connectivity_work := none }

/-! ## Layer indication -/

/-- C `get_layer_color`. -/
def get_layer_color (cfg : widget_config) (layer : Nat) : led_rgb :=
  match layer with
  | 0 => hex_to_rgb cfg.CONFIG_WS2812_WIDGET_LAYER_0_COLOR
  | 1 => hex_to_rgb cfg.CONFIG_WS2812_WIDGET_LAYER_1_COLOR
  | 2 => hex_to_rgb cfg.CONFIG_WS2812_WIDGET_LAYER_2_COLOR
  | 3 => hex_to_rgb cfg.CONFIG_WS2812_WIDGET_LAYER_3_COLOR
  | 4 => hex_to_rgb cfg.CONFIG_WS2812_WIDGET_LAYER_4_COLOR
  | 5 => hex_to_rgb cfg.CONFIG_WS2812_WIDGET_LAYER_5_COLOR
  | 6 => hex_to_rgb cfg.CONFIG_WS2812_WIDGET_LAYER_6_COLOR
  | _ => hex_to_rgb cfg.CONFIG_WS2812_WIDGET_COLOR_WHITE

/-- C `ws2812_indicate_layer`. -/
def ws2812_indicate_layer (env : widget_env) (cfg : widget_config)
    (s : widget_state) : widget_state :=
  let layer := env.zmk_keymap_highest_layer_active
  let color := get_layer_color cfg layer
  let s := (set_leds_color env cfg color s).2
  { s with current_color := color }

/-- C `led_layer_listener_cb`.  `activity_ev` is the result of
`as_zmk_activity_state_changed(eh)`: `some state` for an activity event,
`none` (NULL) for a layer event. -/
def led_layer_listener_cb (env : widget_env) (cfg : widget_config)
    (activity_ev : Option zmk_activity_state) (s : widget_state) : widget_state :=
  if non_split_or_central cfg then
    match activity_ev with
    | some zmk_activity_state.ZMK_ACTIVITY_SLEEP =>
      let s := (set_leds_color env cfg rgb_off s).2
      { s with current_color := rgb_off }
    | some zmk_activity_state.ZMK_ACTIVITY_ACTIVE =>
      if s.initialized then
        { s with layer_indicate_work := some cfg.CONFIG_WS2812_WIDGET_LAYER_DEBOUNCE_MS }
      else s
    | some zmk_activity_state.ZMK_ACTIVITY_IDLE => s
    | none =>
      if s.initialized then
        { s with layer_indicate_work := some cfg.CONFIG_WS2812_WIDGET_LAYER_DEBOUNCE_MS }
      else s
  else s

/-- C `indicate_layer_cb`, run by the work queue when `layer_indicate_work`
expires; nothing happens while it is idle. -/
def indicate_layer_cb (env : widget_env) (cfg : widget_config)
    (s : widget_state) : widget_state :=
  match s.layer_indicate_work with
  | none => s
  | some _ =>
    let s := { s with layer_indicate_work := none }
    if non_split_or_central cfg then ws2812_indicate_layer env cfg s else s

/-! ## Event delivery -/

/-- Delivery of one event to the listeners subscribed to it, following the
`ZMK_LISTENER` / `ZMK_SUBSCRIPTION` lines and the preprocessor conditions
around them. -/
def deliver_event (env : widget_env) (cfg : widget_config) (ev : zmk_event)
    (s : widget_state) : widget_state :=
  match ev with
  | zmk_event.zmk_battery_state_changed soc =>
    if battery_enabled cfg then led_battery_listener_cb cfg soc s else s
  | zmk_event.zmk_endpoint_changed =>
    if cfg.CONFIG_WS2812_WIDGET_SHOW_CONNECTIVITY && non_split_or_central cfg
        && cfg.CONFIG_WS2812_WIDGET_CONN_SHOW_USB then
      led_output_listener_cb env cfg s
    else s
  | zmk_event.zmk_ble_active_profile_changed =>
    if cfg.CONFIG_WS2812_WIDGET_SHOW_CONNECTIVITY && non_split_or_central cfg
        && cfg.CONFIG_ZMK_BLE then
      led_output_listener_cb env cfg s
    else s
  | zmk_event.zmk_split_peripheral_status_changed =>
    if cfg.CONFIG_WS2812_WIDGET_SHOW_CONNECTIVITY && !non_split_or_central cfg
        && cfg.CONFIG_ZMK_SPLIT_BLE then
      led_output_listener_cb env cfg s
    else s
  | zmk_event.zmk_layer_state_changed =>
    if cfg.CONFIG_WS2812_WIDGET_SHOW_LAYER_CHANGE && non_split_or_central cfg then
      led_layer_listener_cb env cfg none s
    else s
  | zmk_event.zmk_activity_state_changed state =>
    if cfg.CONFIG_WS2812_WIDGET_SHOW_LAYER_CHANGE && non_split_or_central cfg then
      led_layer_listener_cb env cfg (some state) s
    else s

/-! ## Pattern executor and start-up -/

/-- Layer indication enabled (`CONFIG_WS2812_WIDGET_SHOW_LAYER_CHANGE`) on a
non-split or central build: the configuration in which the widget shows the
layer colour. -/
def layer_shown (cfg : widget_config) : Bool :=
  cfg.CONFIG_WS2812_WIDGET_SHOW_LAYER_CHANGE && non_split_or_central cfg

/-- The part of the `while (true)` body of `led_process_thread` that follows
`k_msgq_get`: run the pattern, restore the resting colour, sleep. -/
def led_process_pattern (env : widget_env) (cfg : widget_config)
    (pattern : blink_pattern) (s : widget_state) : widget_state :=
  let s := execute_blink_pattern env cfg pattern s
  let s :=
    if cfg.CONFIG_WS2812_WIDGET_SHOW_LAYER_CHANGE then
      if non_split_or_central cfg then
        let layer := env.zmk_keymap_highest_layer_active
        let layer_color := get_layer_color cfg layer
        let s := (set_leds_color env cfg layer_color s).2
        { s with current_color := layer_color }
      else (set_leds_color env cfg rgb_off s).2
    else (set_leds_color env cfg rgb_off s).2
  k_sleep cfg.CONFIG_WS2812_WIDGET_INTERVAL_MS s

/-- One iteration of the `while (true)` loop of `led_process_thread`.
`k_msgq_get(..., K_FOREVER)` blocks on an empty queue: `none`. -/
def led_process_thread_iteration (env : widget_env) (cfg : widget_config)
    (s : widget_state) : Option widget_state :=
  match s.led_msgq with
  | [] => none
  | pattern :: rest => some (led_process_pattern env cfg pattern { s with led_msgq := rest })

/-- C `led_init_thread`. -/
def led_init_thread (env : widget_env) (cfg : widget_config)
    (s : widget_state) : widget_state :=
  if !env.device_is_ready then s
  else
    let s :=
      if battery_enabled cfg then
        let s := ws2812_indicate_battery env cfg s
        k_sleep (cfg.CONFIG_WS2812_WIDGET_BATTERY_BLINK_MS
          + cfg.CONFIG_WS2812_WIDGET_INTERVAL_MS) s
      else s
    let s :=
      if cfg.CONFIG_WS2812_WIDGET_SHOW_CONNECTIVITY then ws2812_indicate_connectivity s
      else s
    let s :=
      if cfg.CONFIG_WS2812_WIDGET_SHOW_LAYER_CHANGE then
        if non_split_or_central cfg then
          let s := k_sleep cfg.CONFIG_WS2812_WIDGET_INTERVAL_MS s
          let initial_layer := env.zmk_keymap_highest_layer_active
          let initial_color := get_layer_color cfg initial_layer
          let s := (set_leds_color env cfg initial_color s).2
          { s with current_color := initial_color }
        else s
      else s
    { s with initialized := true }

/-! ## Reference readings of the colour tables -/

/-- Unpacking of a packed `0xRRGGBB` value as the specification words it:
r is bits 23..16, g is bits 15..8, b is bits 7..0. -/
def unpack_rgb (c : Nat) : led_rgb :=
  ⟨c / 2 ^ 16 % 2 ^ 8, c / 2 ^ 8 % 2 ^ 8, c % 2 ^ 8⟩

/-- The seven configured layer colours, indexed by layer id. -/
def layer_color_table (cfg : widget_config) : List Nat :=
  [cfg.CONFIG_WS2812_WIDGET_LAYER_0_COLOR, cfg.CONFIG_WS2812_WIDGET_LAYER_1_COLOR,
   cfg.CONFIG_WS2812_WIDGET_LAYER_2_COLOR, cfg.CONFIG_WS2812_WIDGET_LAYER_3_COLOR,
   cfg.CONFIG_WS2812_WIDGET_LAYER_4_COLOR, cfg.CONFIG_WS2812_WIDGET_LAYER_5_COLOR,
   cfg.CONFIG_WS2812_WIDGET_LAYER_6_COLOR]

/-- The buffers one pass of the blink loop hands to the strip. -/
def blink_cycle (cfg : widget_config) (pattern : blink_pattern) : List (List led_rgb) :=
  if pattern.pause_ms = 0 then [List.replicate cfg.num_pixels pattern.color]
  else [List.replicate cfg.num_pixels pattern.color, List.replicate cfg.num_pixels rgb_off]

/-! ## A sample build and environment -/

/-- A sample configuration: every indication enabled on a non-split keyboard
with BLE, battery thresholds 50 / 20 / 5, three pixels. -/
def sample_config : widget_config :=
  { num_pixels := 3
    CONFIG_ZMK_BATTERY_REPORTING := true
    CONFIG_WS2812_WIDGET_SHOW_BATTERY := true
    CONFIG_WS2812_WIDGET_SHOW_CONNECTIVITY := true
    CONFIG_WS2812_WIDGET_SHOW_LAYER_CHANGE := true
    CONFIG_WS2812_WIDGET_CONN_SHOW_USB := true
    CONFIG_ZMK_SPLIT := false
    CONFIG_ZMK_SPLIT_ROLE_CENTRAL := false
    CONFIG_ZMK_SPLIT_BLE := false
    CONFIG_ZMK_BLE := true
    CONFIG_WS2812_WIDGET_COLOR_OFF := 0x000000
    CONFIG_WS2812_WIDGET_COLOR_WHITE := 0xFFFFFF
    CONFIG_WS2812_WIDGET_BATTERY_LEVEL_HIGH := 50
    CONFIG_WS2812_WIDGET_BATTERY_LEVEL_LOW := 20
    CONFIG_WS2812_WIDGET_BATTERY_LEVEL_CRITICAL := 5
    CONFIG_WS2812_WIDGET_BATTERY_COLOR_HIGH := 0x00FF00
    CONFIG_WS2812_WIDGET_BATTERY_COLOR_MEDIUM := 0xFFFF00
    CONFIG_WS2812_WIDGET_BATTERY_COLOR_LOW := 0xFF8000
    CONFIG_WS2812_WIDGET_BATTERY_COLOR_CRITICAL := 0xFF0000
    CONFIG_WS2812_WIDGET_CONN_COLOR_USB := 0xFFFFFF
    CONFIG_WS2812_WIDGET_CONN_COLOR_CONNECTED := 0x0000FF
    CONFIG_WS2812_WIDGET_CONN_COLOR_ADVERTISING := 0x00FFFF
    CONFIG_WS2812_WIDGET_CONN_COLOR_DISCONNECTED := 0xFF00FF
    CONFIG_WS2812_WIDGET_LAYER_0_COLOR := 0x000000
    CONFIG_WS2812_WIDGET_LAYER_1_COLOR := 0xFF0000
    CONFIG_WS2812_WIDGET_LAYER_2_COLOR := 0x00FF00
    CONFIG_WS2812_WIDGET_LAYER_3_COLOR := 0xFFFF00
    CONFIG_WS2812_WIDGET_LAYER_4_COLOR := 0x0000FF
    CONFIG_WS2812_WIDGET_LAYER_5_COLOR := 0xFF00FF
    CONFIG_WS2812_WIDGET_LAYER_6_COLOR := 0x00FFFF
    CONFIG_WS2812_WIDGET_BATTERY_BLINK_MS := 2000
    CONFIG_WS2812_WIDGET_CONN_BLINK_MS := 1000
    CONFIG_WS2812_WIDGET_INTERVAL_MS := 500
    CONFIG_WS2812_WIDGET_LAYER_DEBOUNCE_MS := 100 }

/-- A sample environment: strip ready and every write succeeding, battery
sensor reading 3 every time, BLE transport with profile 2 connected, layer 0
on top. -/
def sample_env : widget_env :=
  { device_is_ready := true
    led_strip_update_rgb := fun _ => 0
    zmk_battery_state_of_charge := fun _ => 3
    zmk_endpoints_selected_transport := zmk_transport.ZMK_TRANSPORT_BLE
    zmk_ble_active_profile_index := 2
    zmk_ble_active_profile_is_connected := true
    zmk_ble_active_profile_is_open := false
    zmk_split_bt_peripheral_is_connected := false
    zmk_keymap_highest_layer_active := 0 }

/-- The sample build with layer indication switched off. -/
def no_layer_config : widget_config :=
  { sample_config with CONFIG_WS2812_WIDGET_SHOW_LAYER_CHANGE := false }

/-- The sample environment with a strip driver that accepts the first write
and rejects every later one with `-EIO`. -/
def failing_sink_env : widget_env :=
  { sample_env with led_strip_update_rgb := fun n => if n = 0 then 0 else -5 }

/-- A red single blink with a dark pause. -/
def red_blink : blink_pattern :=
  { color := ⟨255, 0, 0⟩, duration_ms := 2000, pause_ms := 500, repeat_count := 1 }

/-- The sample environment with a battery sensor that answers 0 to the first
four reads and 42 from then on. -/
def slow_battery_env : widget_env :=
  { sample_env with zmk_battery_state_of_charge := fun n => if n < 4 then 0 else 42 }

/-- The sample environment with a battery sensor that never has a reading. -/
def dead_battery_env : widget_env :=
  { sample_env with zmk_battery_state_of_charge := fun _ => 0 }

/-- The sample build without `CONFIG_WS2812_WIDGET_CONN_SHOW_USB`. -/
def no_usb_config : widget_config :=
  { sample_config with CONFIG_WS2812_WIDGET_CONN_SHOW_USB := false }

/-- The sample environment with the USB transport selected (BLE profile 2
still connected). -/
def usb_env : widget_env :=
  { sample_env with zmk_endpoints_selected_transport := zmk_transport.ZMK_TRANSPORT_USB }

/-- The state right after a completed start-up with nothing queued. -/
def ready_state : widget_state := { boot_state with initialized := true }

/-! ## Shared lemmas -/

/-- The shifts and masks of `hex_to_rgb` pick bits 23..16, 15..8 and 7..0. -/
theorem hex_to_rgb_bits (c : Nat) :
    hex_to_rgb c = ⟨c / 2 ^ 16 % 2 ^ 8, c / 2 ^ 8 % 2 ^ 8, c % 2 ^ 8⟩ := by
  have hm : ∀ x : Nat, x &&& 0xFF = x % 2 ^ 8 := fun x => by
    simpa using Nat.and_pow_two_sub_one_eq_mod x 8
  simp only [hex_to_rgb, hm, Nat.shiftRight_eq_div_pow]

/-- Effect of `set_leds_color` on the state: one buffer of `num_pixels`
copies is appended to the writes, and `current_color` follows only a
successful write. -/
theorem set_leds_color_state (env : widget_env) (cfg : widget_config) (c : led_rgb)
    (s : widget_state) :
    (set_leds_color env cfg c s).2 =
      { s with
        writes := s.writes ++ [List.replicate cfg.num_pixels c]
        current_color :=
          if env.led_strip_update_rgb s.writes.length = 0 then c else s.current_color } := by
  unfold set_leds_color
  by_cases h : env.led_strip_update_rgb s.writes.length = 0 <;> simp [h]

/-- One pass of the blink loop appends one cycle of writes and touches neither
the queue, the work items nor the initialized flag. -/
theorem execute_blink_body_effect (env : widget_env) (cfg : widget_config)
    (p : blink_pattern) (s : widget_state) :
    (execute_blink_body env cfg p s).writes = s.writes ++ blink_cycle cfg p ∧
    (execute_blink_body env cfg p s).led_msgq = s.led_msgq ∧
    (execute_blink_body env cfg p s).indicate_connectivity_work
      = s.indicate_connectivity_work ∧
    (execute_blink_body env cfg p s).layer_indicate_work = s.layer_indicate_work ∧
    (execute_blink_body env cfg p s).initialized = s.initialized := by
  unfold execute_blink_body blink_cycle
  by_cases hp : p.pause_ms = 0
  · simp [hp, set_leds_color_state, k_sleep]
  · have hp' : p.pause_ms > 0 := Nat.pos_of_ne_zero hp
    simp [hp, hp', set_leds_color_state, k_sleep]

/-- Running the blink loop for `n` passes. -/
theorem blink_loop_effect (env : widget_env) (cfg : widget_config)
    (p : blink_pattern) (n : Nat) (s : widget_state) :
    ((List.range n).foldl (fun s _ => execute_blink_body env cfg p s) s).writes
      = s.writes ++ (List.replicate n (blink_cycle cfg p)).flatten ∧
    ((List.range n).foldl (fun s _ => execute_blink_body env cfg p s) s).led_msgq
      = s.led_msgq ∧
    ((List.range n).foldl (fun s _ => execute_blink_body env cfg p s) s).indicate_connectivity_work
      = s.indicate_connectivity_work ∧
    ((List.range n).foldl (fun s _ => execute_blink_body env cfg p s) s).layer_indicate_work
      = s.layer_indicate_work ∧
    ((List.range n).foldl (fun s _ => execute_blink_body env cfg p s) s).initialized
      = s.initialized := by
  induction n with
  | zero => simp
  | succ n ih =>
    rw [List.range_succ, List.foldl_append]
    simp only [List.foldl_cons, List.foldl_nil]
    obtain ⟨h1, h2, h3, h4, h5⟩ := execute_blink_body_effect env cfg p
      ((List.range n).foldl (fun s _ => execute_blink_body env cfg p s) s)
    obtain ⟨i1, i2, i3, i4, i5⟩ := ih
    refine ⟨?_, h2.trans i2, h3.trans i3, h4.trans i4, h5.trans i5⟩
    rw [h1, i1, List.replicate_succ', List.flatten_append]
    simp

/-! ## Colour policy -/

/-- C1: `get_battery_color` follows the priority list, first match wins:
level 0 gives the unpacked off colour, then level >= high gives the high
colour, then level >= low gives the medium colour, then level <= critical
gives the critical colour, and anything else gives the low colour.  With the
thresholds 50 / 20 / 5 the levels 0, 5, 19, 20, 50, 100 give off, critical,
low, medium, high, high. -/
theorem get_battery_color_priority (cfg : widget_config) (battery_level : Nat) :
    (battery_level = 0 →
      get_battery_color cfg battery_level
        = hex_to_rgb cfg.CONFIG_WS2812_WIDGET_COLOR_OFF) ∧
    (battery_level ≠ 0 →
      (battery_level : Int) ≥ cfg.CONFIG_WS2812_WIDGET_BATTERY_LEVEL_HIGH →
      get_battery_color cfg battery_level
        = hex_to_rgb cfg.CONFIG_WS2812_WIDGET_BATTERY_COLOR_HIGH) ∧
    (battery_level ≠ 0 →
      (battery_level : Int) < cfg.CONFIG_WS2812_WIDGET_BATTERY_LEVEL_HIGH →
      (battery_level : Int) ≥ cfg.CONFIG_WS2812_WIDGET_BATTERY_LEVEL_LOW →
      get_battery_color cfg battery_level
        = hex_to_rgb cfg.CONFIG_WS2812_WIDGET_BATTERY_COLOR_MEDIUM) ∧
    (battery_level ≠ 0 →
      (battery_level : Int) < cfg.CONFIG_WS2812_WIDGET_BATTERY_LEVEL_HIGH →
      (battery_level : Int) < cfg.CONFIG_WS2812_WIDGET_BATTERY_LEVEL_LOW →
      (battery_level : Int) ≤ cfg.CONFIG_WS2812_WIDGET_BATTERY_LEVEL_CRITICAL →
      get_battery_color cfg battery_level
        = hex_to_rgb cfg.CONFIG_WS2812_WIDGET_BATTERY_COLOR_CRITICAL) ∧
    (battery_level ≠ 0 →
      (battery_level : Int) < cfg.CONFIG_WS2812_WIDGET_BATTERY_LEVEL_HIGH →
      (battery_level : Int) < cfg.CONFIG_WS2812_WIDGET_BATTERY_LEVEL_LOW →
      (battery_level : Int) > cfg.CONFIG_WS2812_WIDGET_BATTERY_LEVEL_CRITICAL →
      get_battery_color cfg battery_level
        = hex_to_rgb cfg.CONFIG_WS2812_WIDGET_BATTERY_COLOR_LOW) ∧
    (cfg.CONFIG_WS2812_WIDGET_BATTERY_LEVEL_HIGH = 50 →
      cfg.CONFIG_WS2812_WIDGET_BATTERY_LEVEL_LOW = 20 →
      cfg.CONFIG_WS2812_WIDGET_BATTERY_LEVEL_CRITICAL = 5 →
      get_battery_color cfg 0 = hex_to_rgb cfg.CONFIG_WS2812_WIDGET_COLOR_OFF ∧
      get_battery_color cfg 5
        = hex_to_rgb cfg.CONFIG_WS2812_WIDGET_BATTERY_COLOR_CRITICAL ∧
      get_battery_color cfg 19 = hex_to_rgb cfg.CONFIG_WS2812_WIDGET_BATTERY_COLOR_LOW ∧
      get_battery_color cfg 20
        = hex_to_rgb cfg.CONFIG_WS2812_WIDGET_BATTERY_COLOR_MEDIUM ∧
      get_battery_color cfg 50 = hex_to_rgb cfg.CONFIG_WS2812_WIDGET_BATTERY_COLOR_HIGH ∧
      get_battery_color cfg 100
        = hex_to_rgb cfg.CONFIG_WS2812_WIDGET_BATTERY_COLOR_HIGH) := by
  refine ⟨?_, ?_, ?_, ?_, ?_, ?_⟩
  · intro h0
    simp [get_battery_color, h0]
  · intro h0 hh
    simp [get_battery_color, h0, hh]
  · intro h0 hh hl
    have hh' : ¬ (battery_level : Int) ≥ cfg.CONFIG_WS2812_WIDGET_BATTERY_LEVEL_HIGH :=
      not_le.mpr hh
    simp only [get_battery_color, if_neg h0, if_neg hh', if_pos hl]
  · intro h0 hh hl hc
    have hh' : ¬ (battery_level : Int) ≥ cfg.CONFIG_WS2812_WIDGET_BATTERY_LEVEL_HIGH :=
      not_le.mpr hh
    have hl' : ¬ (battery_level : Int) ≥ cfg.CONFIG_WS2812_WIDGET_BATTERY_LEVEL_LOW :=
      not_le.mpr hl
    simp only [get_battery_color, if_neg h0, if_neg hh', if_neg hl', if_pos hc]
  · intro h0 hh hl hc
    have hh' : ¬ (battery_level : Int) ≥ cfg.CONFIG_WS2812_WIDGET_BATTERY_LEVEL_HIGH :=
      not_le.mpr hh
    have hl' : ¬ (battery_level : Int) ≥ cfg.CONFIG_WS2812_WIDGET_BATTERY_LEVEL_LOW :=
      not_le.mpr hl
    have hc' : ¬ (battery_level : Int) ≤ cfg.CONFIG_WS2812_WIDGET_BATTERY_LEVEL_CRITICAL :=
      not_le.mpr hc
    simp only [get_battery_color, if_neg h0, if_neg hh', if_neg hl', if_neg hc']
  · intro hh hl hc
    simp [get_battery_color, hh, hl, hc]

/-- Witness for C1 on the sample build: level 5 is non-zero, below the high
and low thresholds and not above the critical one, so it gets the critical
colour (pure red there); the six boundary levels come out as listed. -/
theorem get_battery_color_priority_witness :
    get_battery_color sample_config 5 = ⟨255, 0, 0⟩ ∧
    get_battery_color sample_config 0 = ⟨0, 0, 0⟩ ∧
    get_battery_color sample_config 19 = ⟨255, 128, 0⟩ ∧
    get_battery_color sample_config 20 = ⟨255, 255, 0⟩ ∧
    get_battery_color sample_config 50 = ⟨0, 255, 0⟩ ∧
    get_battery_color sample_config 100 = ⟨0, 255, 0⟩ := by
  have h := get_battery_color_priority sample_config 5
  have h4 := h.2.2.2.1 (by decide) (by decide) (by decide) (by decide)
  have h6 := h.2.2.2.2.2 rfl rfl rfl
  refine ⟨h4.trans (by decide), h6.1.trans (by decide), h6.2.2.1.trans (by decide),
    h6.2.2.2.1.trans (by decide), h6.2.2.2.2.1.trans (by decide),
    h6.2.2.2.2.2.trans (by decide)⟩

/-- C7: `get_layer_color` is total and never fails; for a layer id k in 0..6
it returns the k-th configured layer colour unpacked (r = bits 23..16,
g = bits 15..8, b = bits 7..0 of the packed value), and for every other id
(7..255) the configured white colour unpacked the same way. -/
theorem get_layer_color_lookup (cfg : widget_config) (layer : Nat) :
    (layer ≤ 6 →
      get_layer_color cfg layer = unpack_rgb ((layer_color_table cfg).getD layer 0)) ∧
    (7 ≤ layer →
      get_layer_color cfg layer = unpack_rgb cfg.CONFIG_WS2812_WIDGET_COLOR_WHITE) := by
  refine ⟨?_, ?_⟩
  · intro h
    rcases layer with _ | _ | _ | _ | _ | _ | _ | n
    all_goals first
      | omega
      | (simp only [get_layer_color, layer_color_table, unpack_rgb]
         exact hex_to_rgb_bits _)
  · intro h
    rcases layer with _ | _ | _ | _ | _ | _ | _ | n
    all_goals first
      | omega
      | (simp only [get_layer_color, unpack_rgb]; exact hex_to_rgb_bits _)

/-- Witness for C7 on the sample build: layer 3 is yellow, layer 200 is white. -/
theorem get_layer_color_lookup_witness :
    get_layer_color sample_config 3 = ⟨255, 255, 0⟩ ∧
    get_layer_color sample_config 200 = ⟨255, 255, 255⟩ :=
  ⟨((get_layer_color_lookup sample_config 3).1 (by decide)).trans (by decide),
   ((get_layer_color_lookup sample_config 200).2 (by decide)).trans (by decide)⟩


/-! ## Pattern executor -/

/-- C10: the buffers `execute_blink_pattern` hands to the strip are
`repeat_count` repetitions of the pattern colour alone when `pause_ms = 0`,
and `repeat_count` repetitions of the pair pattern colour, off when
`pause_ms > 0`.  So a pattern with `repeat_count = 0` issues no write and
leaves the state (with `current_color`) as it was, and a pattern with
`pause_ms = 0` issues exactly `repeat_count` writes, all of the pattern
colour, never the off colour. -/
theorem execute_blink_pattern_writes (env : widget_env) (cfg : widget_config)
    (p : blink_pattern) (s : widget_state) :
    (p.pause_ms = 0 →
      (execute_blink_pattern env cfg p s).writes
        = s.writes
          ++ (List.replicate p.repeat_count
                [List.replicate cfg.num_pixels p.color]).flatten) ∧
    (p.pause_ms > 0 →
      (execute_blink_pattern env cfg p s).writes
        = s.writes
          ++ (List.replicate p.repeat_count
                [List.replicate cfg.num_pixels p.color,
                 List.replicate cfg.num_pixels rgb_off]).flatten) ∧
    (p.repeat_count = 0 → execute_blink_pattern env cfg p s = s) ∧
    (p.pause_ms = 0 →
      (execute_blink_pattern env cfg p s).writes
        = s.writes
          ++ List.replicate p.repeat_count (List.replicate cfg.num_pixels p.color)) := by
  have hw := (blink_loop_effect env cfg p p.repeat_count s).1
  refine ⟨?_, ?_, ?_, ?_⟩
  · intro hp
    simpa [execute_blink_pattern, blink_cycle, hp] using hw
  · intro hp
    have hp' : p.pause_ms ≠ 0 := Nat.pos_iff_ne_zero.mp hp
    simpa [execute_blink_pattern, blink_cycle, hp'] using hw
  · intro hr
    simp [execute_blink_pattern, hr]
  · intro hp
    have : (List.replicate p.repeat_count [List.replicate cfg.num_pixels p.color]).flatten
        = List.replicate p.repeat_count (List.replicate cfg.num_pixels p.color) := by
      induction p.repeat_count with
      | zero => simp
      | succ n ih => simp [List.replicate_succ, ih]
    rw [← this]
    simpa [execute_blink_pattern, blink_cycle, hp] using hw

/-- Witness for C10: on the sample build a red double blink with a pause
writes red, off, red, off (three pixels each); the same without pause writes
red, red; with no repeats nothing is written. -/
theorem execute_blink_pattern_writes_witness :
    (execute_blink_pattern sample_env sample_config
        { red_blink with repeat_count := 2 } boot_state).writes
      = [List.replicate 3 ⟨255, 0, 0⟩, List.replicate 3 ⟨0, 0, 0⟩,
         List.replicate 3 ⟨255, 0, 0⟩, List.replicate 3 ⟨0, 0, 0⟩] ∧
    (execute_blink_pattern sample_env sample_config
        { red_blink with repeat_count := 2, pause_ms := 0 } boot_state).writes
      = [List.replicate 3 ⟨255, 0, 0⟩, List.replicate 3 ⟨255, 0, 0⟩] ∧
    execute_blink_pattern sample_env sample_config
        { red_blink with repeat_count := 0 } boot_state = boot_state :=
  ⟨((execute_blink_pattern_writes sample_env sample_config
        { red_blink with repeat_count := 2 } boot_state).2.1 (by decide)).trans (by decide),
   ((execute_blink_pattern_writes sample_env sample_config
        { red_blink with repeat_count := 2, pause_ms := 0 } boot_state).2.2.2
        (by decide)).trans (by decide),
   (execute_blink_pattern_writes sample_env sample_config
        { red_blink with repeat_count := 0 } boot_state).2.2.1 (by decide)⟩

/-- C8 fails as stated: on the sample build without layer indication, with a
strip driver that accepts the first write and rejects the later ones, one
executor iteration on a queued red blink ends with `current_color` red, not
off: the rejected restoring write leaves the record where the last accepted
write put it. -/
theorem led_process_baseline_counterexample :
    layer_shown no_layer_config = false ∧
    (led_process_thread_iteration failing_sink_env no_layer_config
        { boot_state with led_msgq := [red_blink] }).map (fun s => s.current_color)
      = some ⟨255, 0, 0⟩ ∧
    (led_process_thread_iteration failing_sink_env no_layer_config
        { boot_state with led_msgq := [red_blink] }).map (fun s => s.current_color)
      ≠ some rgb_off := by
  decide

/-- C8 (amended): one executor iteration on a queue with head `p` always
completes, and issues the blink writes followed by the restoring write
whatever the strip driver returns.  Afterwards, when layer indication is
enabled on a non-split or central build, `current_color` is the colour of the
highest active layer, whatever the driver returned; in every other build
`current_color` is off when the restoring write succeeded, and otherwise is
what `execute_blink_pattern` left. -/
theorem led_process_iteration_baseline (env : widget_env) (cfg : widget_config)
    (p : blink_pattern) (rest : List blink_pattern) (s : widget_state)
    (hq : s.led_msgq = p :: rest) :
    ∃ s2, led_process_thread_iteration env cfg s = some s2 ∧
      s2.led_msgq = rest ∧
      s2.writes = s.writes ++ (List.replicate p.repeat_count (blink_cycle cfg p)).flatten
        ++ [List.replicate cfg.num_pixels
              (if layer_shown cfg then
                get_layer_color cfg env.zmk_keymap_highest_layer_active
               else rgb_off)] ∧
      (layer_shown cfg = true →
        s2.current_color = get_layer_color cfg env.zmk_keymap_highest_layer_active) ∧
      (layer_shown cfg = false →
        s2.current_color =
          if env.led_strip_update_rgb
              (execute_blink_pattern env cfg p { s with led_msgq := rest }).writes.length = 0
          then rgb_off
          else (execute_blink_pattern env cfg p { s with led_msgq := rest }).current_color) := by
  obtain ⟨hw0, hm0, -, -, -⟩ :=
    blink_loop_effect env cfg p p.repeat_count { s with led_msgq := rest }
  have hw : (execute_blink_pattern env cfg p { s with led_msgq := rest }).writes
      = s.writes ++ (List.replicate p.repeat_count (blink_cycle cfg p)).flatten := hw0
  have hm : (execute_blink_pattern env cfg p { s with led_msgq := rest }).led_msgq
      = rest := hm0
  refine ⟨led_process_pattern env cfg p { s with led_msgq := rest }, ?_, ?_, ?_, ?_, ?_⟩
  · simp [led_process_thread_iteration, hq]
  · unfold led_process_pattern
    cases cfg.CONFIG_WS2812_WIDGET_SHOW_LAYER_CHANGE <;>
      cases non_split_or_central cfg <;>
      simp [set_leds_color_state, k_sleep, hm]
  · unfold led_process_pattern layer_shown
    cases cfg.CONFIG_WS2812_WIDGET_SHOW_LAYER_CHANGE <;>
      cases non_split_or_central cfg <;>
      simp [set_leds_color_state, k_sleep, hw]
  · intro hl
    unfold layer_shown at hl
    unfold led_process_pattern
    cases h1 : cfg.CONFIG_WS2812_WIDGET_SHOW_LAYER_CHANGE <;>
      cases h2 : non_split_or_central cfg <;>
      simp_all [set_leds_color_state, k_sleep]
  · intro hl
    unfold layer_shown at hl
    unfold led_process_pattern
    cases h1 : cfg.CONFIG_WS2812_WIDGET_SHOW_LAYER_CHANGE <;>
      cases h2 : non_split_or_central cfg <;>
      simp_all [set_leds_color_state, k_sleep]

/-- Witness for C8 (amended): on the sample build a queued red blink is run
and layer 0 (off there) is restored and recorded, with the failing driver as
well as with the accepting one. -/
theorem led_process_iteration_baseline_witness :
    (∃ s2, led_process_thread_iteration failing_sink_env sample_config
        { boot_state with led_msgq := [red_blink] } = some s2 ∧
      s2.writes = [List.replicate 3 ⟨255, 0, 0⟩, List.replicate 3 ⟨0, 0, 0⟩,
        List.replicate 3 ⟨0, 0, 0⟩] ∧
      s2.current_color = ⟨0, 0, 0⟩) := by
  obtain ⟨s2, h1, -, h3, h4, -⟩ :=
    led_process_iteration_baseline failing_sink_env sample_config red_blink []
      { boot_state with led_msgq := [red_blink] } rfl
  exact ⟨s2, h1, h3.trans (by decide), (h4 (by decide)).trans (by decide)⟩

/-! ## Battery read loop -/

/-- The retry loop, entered with any values of the locals: it makes `m` more
reads for some `m` of at most `10 - retry`, sleeps 100 ms before each, leaves
with the last reading taken (or the level it was entered with), went on only
past zero readings, and leaves with a zero level only when the retries are
used up. -/
theorem battery_retry_loop_spec (env : widget_env) (battery_level retry : Nat)
    (s : widget_state) :
    ∃ m, m ≤ 10 - retry ∧
      (battery_retry_loop env battery_level retry s).2.2
        = { s with
            sleeps := s.sleeps ++ List.replicate m 100
            battery_reads := s.battery_reads + m } ∧
      (battery_retry_loop env battery_level retry s).1
        = (if m = 0 then battery_level
           else env.zmk_battery_state_of_charge (s.battery_reads + m - 1)) ∧
      (0 < m → battery_level = 0) ∧
      (∀ k, k + 1 < m → env.zmk_battery_state_of_charge (s.battery_reads + k) = 0) ∧
      ((battery_retry_loop env battery_level retry s).1 = 0 → m = 10 - retry) := by
  induction battery_level, retry, s using battery_retry_loop.induct env with
  | case1 retry s h s1 r ih =>
    -- level 0, retries left: sleep, read, loop again
    obtain ⟨m, hm, hs, hl, hz, hk, hf⟩ := ih
    have hr1 : r.1 = env.zmk_battery_state_of_charge s.battery_reads := rfl
    have hr2 : r.2 = { s with sleeps := s.sleeps ++ [100]
                              battery_reads := s.battery_reads + 1 } := rfl
    have hb : r.2.battery_reads = s.battery_reads + 1 := rfl
    have hunf : battery_retry_loop env 0 retry s = battery_retry_loop env r.1 (retry + 1) r.2 := by
      rw [battery_retry_loop]
      simp only [if_true, dif_pos h]
    rw [hunf]
    refine ⟨m + 1, by omega, ?_, ?_, fun _ => rfl, ?_, ?_⟩
    · rw [hs, hr2]
      simp [List.replicate_succ, Nat.add_assoc, Nat.add_comm 1 m]
    · rw [hl, hb, hr1]
      by_cases hm0 : m = 0
      · simp [hm0]
      · have e : s.battery_reads + 1 + m - 1 = s.battery_reads + (m + 1) - 1 := by omega
        simp [hm0, e]
    · intro k hk1
      rcases k with _ | j
      · have := hz (by omega)
        rw [hr1] at this
        simpa using this
      · have := hk j (by omega)
        rw [hb] at this
        rw [← this]
        congr 1
        omega
    · intro h0
      have := hf h0
      omega
  | case2 retry s h =>
    -- level 0, retries used up
    rw [battery_retry_loop]
    simp only [if_true, dif_neg h]
    exact ⟨0, by omega, by simp, by simp, by simp, by intro k hk; omega, by intro _; omega⟩
  | case3 battery_level retry s h =>
    -- non-zero level
    rw [battery_retry_loop]
    simp only [if_neg h]
    exact ⟨0, by omega, by simp, by simp, by simp, by intro k hk; omega,
      by intro h0; exact absurd h0 h⟩

/-- C9: for every sequence of sensor readings the read loop of
`ws2812_indicate_battery` ends after the initial read and `m` retries with
`m` at most 10, having slept 100 ms exactly `m` times; every reading before
the last one was zero (it stops at the first non-zero reading); the level
that builds the pattern is the last reading taken; and that level is zero
only when the initial read and all ten retries returned zero. -/
theorem ws2812_indicate_battery_read_bounded (env : widget_env) (s : widget_state) :
    ∃ m, m ≤ 10 ∧
      (ws2812_indicate_battery_read env s).2
        = { s with
            sleeps := s.sleeps ++ List.replicate m 100
            battery_reads := s.battery_reads + (m + 1) } ∧
      (ws2812_indicate_battery_read env s).1
        = env.zmk_battery_state_of_charge (s.battery_reads + m) ∧
      (∀ k, k < m → env.zmk_battery_state_of_charge (s.battery_reads + k) = 0) ∧
      ((ws2812_indicate_battery_read env s).1 = 0 →
        m = 10 ∧ ∀ k, k ≤ 10 → env.zmk_battery_state_of_charge (s.battery_reads + k) = 0) ∧
      (∀ cfg : widget_config,
        ws2812_indicate_battery env cfg s
          = k_msgq_put
              { color := get_battery_color cfg
                  (env.zmk_battery_state_of_charge (s.battery_reads + m))
                duration_ms := to_u16 cfg.CONFIG_WS2812_WIDGET_BATTERY_BLINK_MS
                pause_ms := to_u16 cfg.CONFIG_WS2812_WIDGET_INTERVAL_MS
                repeat_count := 3 }
              (ws2812_indicate_battery_read env s).2) := by
  obtain ⟨m, hm, hs, hl, hz, hk, hf⟩ :=
    battery_retry_loop_spec env (env.zmk_battery_state_of_charge s.battery_reads) 0
      { s with battery_reads := s.battery_reads + 1 }
  have hlevel : (ws2812_indicate_battery_read env s).1
      = env.zmk_battery_state_of_charge (s.battery_reads + m) := by
    show (battery_retry_loop env (env.zmk_battery_state_of_charge s.battery_reads) 0
      { s with battery_reads := s.battery_reads + 1 }).1 = _
    rw [hl]
    by_cases hm0 : m = 0
    · simp [hm0]
    · have e : s.battery_reads + 1 + m - 1 = s.battery_reads + m := by omega
      simp [hm0, e]
  have hzero : ∀ k, k < m → env.zmk_battery_state_of_charge (s.battery_reads + k) = 0 := by
    intro k hkm
    rcases k with _ | j
    · simpa using hz hkm
    · have := hk j (by omega)
      rw [← this]
      show env.zmk_battery_state_of_charge (s.battery_reads + (j + 1))
        = env.zmk_battery_state_of_charge (s.battery_reads + 1 + j)
      congr 1
      omega
  refine ⟨m, by omega, ?_, hlevel, hzero, ?_, ?_⟩
  · show (battery_retry_loop env (env.zmk_battery_state_of_charge s.battery_reads) 0
      { s with battery_reads := s.battery_reads + 1 }).2.2 = _
    rw [hs]
    simp [Nat.add_assoc, Nat.add_comm 1 m]
  · intro h0
    have h0' : (battery_retry_loop env (env.zmk_battery_state_of_charge s.battery_reads) 0
      { s with battery_reads := s.battery_reads + 1 }).1 = 0 := h0
    have hm10 : m = 10 := by
      have := hf h0'
      omega
    refine ⟨hm10, fun k hk10 => ?_⟩
    rcases Nat.lt_or_ge k m with hlt | hge
    · exact hzero k hlt
    · have hkm : k = m := by omega
      rw [hkm, ← hlevel]
      exact h0
  · intro cfg
    unfold ws2812_indicate_battery
    simp only [hlevel]

/-- Witness for C9: a sensor that answers 0 four times and then 42 is read
five times with four sleeps and level 42 is used; a sensor that always
answers 0 is read eleven times with ten sleeps and level 0 is used. -/
theorem ws2812_indicate_battery_read_bounded_witness :
    ws2812_indicate_battery_read slow_battery_env boot_state
      = (42, { boot_state with sleeps := [100, 100, 100, 100], battery_reads := 5 }) ∧
    ws2812_indicate_battery_read dead_battery_env boot_state
      = (0, { boot_state with sleeps := List.replicate 10 100, battery_reads := 11 }) := by
  constructor
  · obtain ⟨m, hm, hs, hl, hk, h0, -⟩ :=
      ws2812_indicate_battery_read_bounded slow_battery_env boot_state
    have hsoc : ∀ n, slow_battery_env.zmk_battery_state_of_charge n
        = if n < 4 then 0 else 42 := fun _ => rfl
    have hb : boot_state.battery_reads = 0 := rfl
    have hm4 : m = 4 := by
      rcases Nat.lt_trichotomy m 4 with h | h | h
      · have hz : (ws2812_indicate_battery_read slow_battery_env boot_state).1 = 0 := by
          rw [hl, hsoc, hb]; simp [h]
        have := (h0 hz).1
        omega
      · exact h
      · have := hk 4 h
        rw [hsoc, hb] at this
        simp at this
    subst hm4
    exact Prod.ext (hl.trans (by decide)) (hs.trans (by decide))
  · obtain ⟨m, hm, hs, hl, hk, h0, -⟩ :=
      ws2812_indicate_battery_read_bounded dead_battery_env boot_state
    have hz : (ws2812_indicate_battery_read dead_battery_env boot_state).1 = 0 := by
      rw [hl]; rfl
    have hm10 := (h0 hz).1
    subst hm10
    exact Prod.ext (hl.trans (by decide)) (hs.trans (by decide))

/-! ## Start-up -/

/-- With a non-zero first reading the read loop makes that single read. -/
theorem ws2812_indicate_battery_read_first (env : widget_env) (s : widget_state)
    (h : env.zmk_battery_state_of_charge s.battery_reads ≠ 0) :
    ws2812_indicate_battery_read env s
      = (env.zmk_battery_state_of_charge s.battery_reads,
         { s with battery_reads := s.battery_reads + 1 }) := by
  unfold ws2812_indicate_battery_read zmk_battery_state_of_charge
  simp only []
  rw [battery_retry_loop]
  simp [h]

/-- C2 fails as stated: on the sample build (thresholds 50 / 20 / 5, battery
blink 2000 ms, interval 500 ms) with the sensor reading 3, start-up from boot
queues one pattern of the critical colour whose `repeat_count` is 3, not 5,
and whose `pause_ms` is the 500 ms interval, not the 2000 ms on-duration. -/
theorem led_init_thread_battery_counterexample :
    (led_init_thread sample_env sample_config boot_state).led_msgq
      = [{ color := ⟨255, 0, 0⟩, duration_ms := 2000, pause_ms := 500, repeat_count := 3 }] ∧
    ¬ ∃ p ∈ (led_init_thread sample_env sample_config boot_state).led_msgq,
        p.repeat_count = 5 ∧ p.pause_ms = p.duration_ms := by
  have hq : (led_init_thread sample_env sample_config boot_state).led_msgq
      = [{ color := ⟨255, 0, 0⟩, duration_ms := 2000, pause_ms := 500, repeat_count := 3 }] := by
    have hr := ws2812_indicate_battery_read_first sample_env boot_state (by decide)
    simp only [led_init_thread, ws2812_indicate_battery, hr]
    decide
  refine ⟨hq, ?_⟩
  rw [hq]
  decide

/-- C2 (amended): at start-up with the strip ready, battery indication
enabled, thresholds 50 / 20 / 5 and the sensor returning 3 on the first read,
the start-up thread queues (when the queue has room) exactly one pattern: the
critical colour, `repeat_count` 3, `duration_ms` the battery blink time and
`pause_ms` the interval time; and it sets the initialized flag. -/
theorem led_init_thread_battery_pattern (env : widget_env) (cfg : widget_config)
    (s : widget_state)
    (hready : env.device_is_ready = true)
    (hbat : battery_enabled cfg = true)
    (hhigh : cfg.CONFIG_WS2812_WIDGET_BATTERY_LEVEL_HIGH = 50)
    (hlow : cfg.CONFIG_WS2812_WIDGET_BATTERY_LEVEL_LOW = 20)
    (hcrit : cfg.CONFIG_WS2812_WIDGET_BATTERY_LEVEL_CRITICAL = 5)
    (hread : env.zmk_battery_state_of_charge s.battery_reads = 3)
    (hroom : s.led_msgq.length < led_msgq_max_msgs) :
    (led_init_thread env cfg s).led_msgq
      = s.led_msgq ++
        [{ color := hex_to_rgb cfg.CONFIG_WS2812_WIDGET_BATTERY_COLOR_CRITICAL
           duration_ms := cfg.CONFIG_WS2812_WIDGET_BATTERY_BLINK_MS % 65536
           pause_ms := cfg.CONFIG_WS2812_WIDGET_INTERVAL_MS % 65536
           repeat_count := 3 }] ∧
    (led_init_thread env cfg s).initialized = true := by
  have hr := ws2812_indicate_battery_read_first env s (by rw [hread]; decide)
  have hcol : get_battery_color cfg 3
      = hex_to_rgb cfg.CONFIG_WS2812_WIDGET_BATTERY_COLOR_CRITICAL := by
    simp [get_battery_color, hhigh, hlow, hcrit]
  have hput : (ws2812_indicate_battery env cfg s).led_msgq
      = s.led_msgq ++
        [{ color := hex_to_rgb cfg.CONFIG_WS2812_WIDGET_BATTERY_COLOR_CRITICAL
           duration_ms := cfg.CONFIG_WS2812_WIDGET_BATTERY_BLINK_MS % 65536
           pause_ms := cfg.CONFIG_WS2812_WIDGET_INTERVAL_MS % 65536
           repeat_count := 3 }] := by
    simp only [ws2812_indicate_battery, hr, hread, hcol, k_msgq_put, to_u16]
    rw [if_pos hroom]
  constructor
  · unfold led_init_thread
    simp only [hready, hbat, Bool.not_true, Bool.false_eq_true, if_false, if_true]
    cases cfg.CONFIG_WS2812_WIDGET_SHOW_CONNECTIVITY <;>
      cases cfg.CONFIG_WS2812_WIDGET_SHOW_LAYER_CHANGE <;>
      cases non_split_or_central cfg <;>
      simp [ws2812_indicate_connectivity, k_sleep, set_leds_color_state, hput]
  · unfold led_init_thread
    simp [hready]

/-- Witness for C2 (amended): the sample build and environment meet the
hypotheses from boot, and the queued pattern is red, 2000 ms on, 500 ms
pause, three repeats. -/
theorem led_init_thread_battery_pattern_witness :
    (led_init_thread sample_env sample_config boot_state).led_msgq
      = boot_state.led_msgq ++
        [{ color := hex_to_rgb sample_config.CONFIG_WS2812_WIDGET_BATTERY_COLOR_CRITICAL
           duration_ms := sample_config.CONFIG_WS2812_WIDGET_BATTERY_BLINK_MS % 65536
           pause_ms := sample_config.CONFIG_WS2812_WIDGET_INTERVAL_MS % 65536
           repeat_count := 3 }] ∧
    (led_init_thread sample_env sample_config boot_state).initialized = true :=
  led_init_thread_battery_pattern sample_env sample_config boot_state rfl rfl rfl rfl rfl
    rfl (by decide)

/-! ## Event listeners -/

/-- C6: once initialized, `led_battery_listener_cb` calls `k_msgq_put` if and
only if the reported level is non-zero and at most the critical threshold;
the pattern it puts is the critical colour, five repeats, on-time and pause
both the battery blink time, and with room in the queue it is appended as the
one new entry; for every other level the state is untouched.  The listener
never writes to the strip, never changes `current_color` and arms no work. -/
theorem led_battery_listener_cb_urgent_only (cfg : widget_config)
    (state_of_charge : Nat) (s : widget_state) (hinit : s.initialized = true) :
    ((0 < state_of_charge ∧
        (state_of_charge : Int) ≤ cfg.CONFIG_WS2812_WIDGET_BATTERY_LEVEL_CRITICAL) →
      led_battery_listener_cb cfg state_of_charge s
        = k_msgq_put
            { color := hex_to_rgb cfg.CONFIG_WS2812_WIDGET_BATTERY_COLOR_CRITICAL
              duration_ms := cfg.CONFIG_WS2812_WIDGET_BATTERY_BLINK_MS % 65536
              pause_ms := cfg.CONFIG_WS2812_WIDGET_BATTERY_BLINK_MS % 65536
              repeat_count := 5 } s) ∧
    ((0 < state_of_charge ∧
        (state_of_charge : Int) ≤ cfg.CONFIG_WS2812_WIDGET_BATTERY_LEVEL_CRITICAL) →
      s.led_msgq.length < led_msgq_max_msgs →
      (led_battery_listener_cb cfg state_of_charge s).led_msgq
        = s.led_msgq ++
          [{ color := hex_to_rgb cfg.CONFIG_WS2812_WIDGET_BATTERY_COLOR_CRITICAL
             duration_ms := cfg.CONFIG_WS2812_WIDGET_BATTERY_BLINK_MS % 65536
             pause_ms := cfg.CONFIG_WS2812_WIDGET_BATTERY_BLINK_MS % 65536
             repeat_count := 5 }]) ∧
    (¬ (0 < state_of_charge ∧
        (state_of_charge : Int) ≤ cfg.CONFIG_WS2812_WIDGET_BATTERY_LEVEL_CRITICAL) →
      led_battery_listener_cb cfg state_of_charge s = s) ∧
    (led_battery_listener_cb cfg state_of_charge s).writes = s.writes ∧
    (led_battery_listener_cb cfg state_of_charge s).current_color = s.current_color ∧
    (led_battery_listener_cb cfg state_of_charge s).indicate_connectivity_work
      = s.indicate_connectivity_work ∧
    (led_battery_listener_cb cfg state_of_charge s).layer_indicate_work
      = s.layer_indicate_work := by
  by_cases hc : 0 < state_of_charge ∧
      (state_of_charge : Int) ≤ cfg.CONFIG_WS2812_WIDGET_BATTERY_LEVEL_CRITICAL
  · have hcb : led_battery_listener_cb cfg state_of_charge s
        = k_msgq_put
            { color := hex_to_rgb cfg.CONFIG_WS2812_WIDGET_BATTERY_COLOR_CRITICAL
              duration_ms := cfg.CONFIG_WS2812_WIDGET_BATTERY_BLINK_MS % 65536
              pause_ms := cfg.CONFIG_WS2812_WIDGET_BATTERY_BLINK_MS % 65536
              repeat_count := 5 } s := by
      unfold led_battery_listener_cb
      simp only [hinit, Bool.not_true, Bool.false_eq_true, if_false, gt_iff_lt, hc,
        and_self, if_true, to_u16]
    rw [hcb]
    refine ⟨fun _ => rfl, ?_, fun h => absurd hc h, ?_, ?_, ?_, ?_⟩
    · intro _ hroom
      simp [k_msgq_put, hroom]
    all_goals
      unfold k_msgq_put
      split <;> rfl
  · have hcb : led_battery_listener_cb cfg state_of_charge s = s := by
      unfold led_battery_listener_cb
      simp only [hinit, Bool.not_true, Bool.false_eq_true, if_false, gt_iff_lt]
      rw [if_neg hc]
    rw [hcb]
    exact ⟨fun h => absurd h hc, fun h => absurd h hc, fun _ => rfl, rfl, rfl, rfl, rfl⟩

/-- Witness for C6 on the sample build (critical threshold 5): level 4 queues
the red five-fold warning, level 6 and level 0 leave the state alone. -/
theorem led_battery_listener_cb_urgent_only_witness :
    (led_battery_listener_cb sample_config 4 ready_state).led_msgq
      = [{ color := ⟨255, 0, 0⟩, duration_ms := 2000, pause_ms := 2000, repeat_count := 5 }] ∧
    led_battery_listener_cb sample_config 6 ready_state = ready_state ∧
    led_battery_listener_cb sample_config 0 ready_state = ready_state :=
  ⟨((led_battery_listener_cb_urgent_only sample_config 4 ready_state rfl).2.1
      (by decide) (by decide)).trans (by decide),
   (led_battery_listener_cb_urgent_only sample_config 6 ready_state rfl).2.2.1 (by decide),
   (led_battery_listener_cb_urgent_only sample_config 0 ready_state rfl).2.2.1 (by decide)⟩

/-- C3 fails as stated: on the sample build a sleep event delivered at boot,
before the initialized flag is set, hands an all-off buffer to the strip. -/
theorem deliver_event_sleep_counterexample :
    boot_state.initialized = false ∧
    (deliver_event sample_env sample_config
        (zmk_event.zmk_activity_state_changed zmk_activity_state.ZMK_ACTIVITY_SLEEP)
        boot_state).writes
      = [List.replicate 3 ⟨0, 0, 0⟩] ∧
    deliver_event sample_env sample_config
        (zmk_event.zmk_activity_state_changed zmk_activity_state.ZMK_ACTIVITY_SLEEP)
        boot_state
      ≠ boot_state := by
  decide

/-- C3 (amended): while the initialized flag is false, every listener is a
no-op for every event other than activity changed to sleep: battery changed
with any level, connectivity or profile changed, layer changed, activity
changed to active or idle leave the whole state (queue, work items, writes,
`current_color`) as it was, also through `deliver_event`.  Activity changed
to sleep is not suppressed: where the layer listener is built (layer
indication on a non-split or central build) it writes off to the strip and
sets `current_color` to off, even then queueing nothing and arming no work. -/
theorem listeners_before_initialized (env : widget_env) (cfg : widget_config)
    (s : widget_state) (hinit : s.initialized = false) :
    (∀ soc, led_battery_listener_cb cfg soc s = s) ∧
    led_output_listener_cb env cfg s = s ∧
    led_layer_listener_cb env cfg none s = s ∧
    led_layer_listener_cb env cfg (some zmk_activity_state.ZMK_ACTIVITY_ACTIVE) s = s ∧
    led_layer_listener_cb env cfg (some zmk_activity_state.ZMK_ACTIVITY_IDLE) s = s ∧
    (∀ ev, ev ≠ zmk_event.zmk_activity_state_changed zmk_activity_state.ZMK_ACTIVITY_SLEEP →
      deliver_event env cfg ev s = s) ∧
    (layer_shown cfg = true →
      deliver_event env cfg
          (zmk_event.zmk_activity_state_changed zmk_activity_state.ZMK_ACTIVITY_SLEEP) s
        = { s with
            writes := s.writes ++ [List.replicate cfg.num_pixels rgb_off]
            current_color := rgb_off }) ∧
    (layer_shown cfg = false →
      deliver_event env cfg
          (zmk_event.zmk_activity_state_changed zmk_activity_state.ZMK_ACTIVITY_SLEEP) s
        = s) := by
  have hb : ∀ soc, led_battery_listener_cb cfg soc s = s := fun soc => by
    simp [led_battery_listener_cb, hinit]
  have ho : led_output_listener_cb env cfg s = s := by
    simp [led_output_listener_cb, hinit]
  have hl : led_layer_listener_cb env cfg none s = s := by
    unfold led_layer_listener_cb
    cases non_split_or_central cfg <;> simp [hinit]
  have ha : led_layer_listener_cb env cfg (some zmk_activity_state.ZMK_ACTIVITY_ACTIVE) s
      = s := by
    unfold led_layer_listener_cb
    cases non_split_or_central cfg <;> simp [hinit]
  have hi : led_layer_listener_cb env cfg (some zmk_activity_state.ZMK_ACTIVITY_IDLE) s
      = s := by
    unfold led_layer_listener_cb
    cases non_split_or_central cfg <;> simp
  refine ⟨hb, ho, hl, ha, hi, ?_, ?_, ?_⟩
  · intro ev hev
    cases ev with
    | zmk_battery_state_changed soc => simp [deliver_event, hb]
    | zmk_endpoint_changed => simp [deliver_event, ho]
    | zmk_ble_active_profile_changed => simp [deliver_event, ho]
    | zmk_split_peripheral_status_changed => simp [deliver_event, ho]
    | zmk_layer_state_changed => simp [deliver_event, hl]
    | zmk_activity_state_changed st =>
      cases st with
      | ZMK_ACTIVITY_ACTIVE => simp [deliver_event, ha]
      | ZMK_ACTIVITY_IDLE => simp [deliver_event, hi]
      | ZMK_ACTIVITY_SLEEP => exact absurd rfl hev
  · intro hshown
    unfold layer_shown at hshown
    have hc : non_split_or_central cfg = true := by
      cases h : non_split_or_central cfg
      · simp [h] at hshown
      · rfl
    have hs : cfg.CONFIG_WS2812_WIDGET_SHOW_LAYER_CHANGE = true := by
      cases h : cfg.CONFIG_WS2812_WIDGET_SHOW_LAYER_CHANGE
      · simp [h] at hshown
      · rfl
    simp [deliver_event, hs, hc, led_layer_listener_cb, set_leds_color_state]
  · intro hshown
    unfold layer_shown at hshown
    simp [deliver_event, hshown]

/-- Witness for C3 (amended): at boot on the sample build a layer change and
a critical battery report change nothing, and a sleep event appends the
all-off write. -/
theorem listeners_before_initialized_witness :
    deliver_event sample_env sample_config zmk_event.zmk_layer_state_changed boot_state
      = boot_state ∧
    deliver_event sample_env sample_config (zmk_event.zmk_battery_state_changed 3) boot_state
      = boot_state ∧
    deliver_event sample_env sample_config
        (zmk_event.zmk_activity_state_changed zmk_activity_state.ZMK_ACTIVITY_SLEEP)
        boot_state
      = { boot_state with writes := [List.replicate 3 ⟨0, 0, 0⟩] } :=
  ⟨(listeners_before_initialized sample_env sample_config boot_state rfl).2.2.2.2.2.1 _
      (by decide),
   (listeners_before_initialized sample_env sample_config boot_state rfl).2.2.2.2.2.1 _
      (by decide),
   ((listeners_before_initialized sample_env sample_config boot_state rfl).2.2.2.2.2.2.1
      (by decide)).trans (by decide)⟩

/-! ## Connectivity -/

/-- C4, the code at the failing input: on the sample build after start-up,
each profile-changed event makes `led_output_listener_cb` queue a pattern at
once and leaves `indicate_connectivity_work` idle, so two events in a row
queue two patterns; the debounced entry point `ws2812_indicate_connectivity`
called twice queues nothing itself and one pattern when the work runs. -/
theorem led_output_listener_cb_not_debounced :
    ready_state.initialized = true ∧
    (deliver_event sample_env sample_config zmk_event.zmk_ble_active_profile_changed
        ready_state).led_msgq
      = [{ color := ⟨0, 0, 255⟩, duration_ms := 1000, pause_ms := 500, repeat_count := 3 }] ∧
    (deliver_event sample_env sample_config zmk_event.zmk_ble_active_profile_changed
        ready_state).indicate_connectivity_work = none ∧
    (deliver_event sample_env sample_config zmk_event.zmk_ble_active_profile_changed
        (deliver_event sample_env sample_config zmk_event.zmk_ble_active_profile_changed
          ready_state)).led_msgq
      = [{ color := ⟨0, 0, 255⟩, duration_ms := 1000, pause_ms := 500, repeat_count := 3 },
         { color := ⟨0, 0, 255⟩, duration_ms := 1000, pause_ms := 500, repeat_count := 3 }] ∧
    (deliver_event sample_env sample_config zmk_event.zmk_ble_active_profile_changed
        (deliver_event sample_env sample_config zmk_event.zmk_ble_active_profile_changed
          ready_state)).indicate_connectivity_work = none ∧
    (ws2812_indicate_connectivity (ws2812_indicate_connectivity ready_state)).led_msgq = [] ∧
    (ws2812_indicate_connectivity
        (ws2812_indicate_connectivity ready_state)).indicate_connectivity_work = some 16 ∧
    (indicate_connectivity_cb sample_env sample_config
        (ws2812_indicate_connectivity (ws2812_indicate_connectivity ready_state))).led_msgq
      = [{ color := ⟨0, 0, 255⟩, duration_ms := 1000, pause_ms := 500, repeat_count := 3 }] := by
  decide

/-- C5 fails as stated: on the sample build without
`CONFIG_WS2812_WIDGET_CONN_SHOW_USB` (a non-split build) the USB transport
with BLE profile 2 connected gives three flashes of the connected colour,
not one flash of the USB colour. -/
theorem connectivity_pattern_usb_counterexample :
    non_split_or_central no_usb_config = true ∧
    usb_env.zmk_endpoints_selected_transport = zmk_transport.ZMK_TRANSPORT_USB ∧
    (connectivity_pattern usb_env no_usb_config).repeat_count = 3 ∧
    (connectivity_pattern usb_env no_usb_config).repeat_count ≠ 1 ∧
    (connectivity_pattern usb_env no_usb_config).color
      = hex_to_rgb no_usb_config.CONFIG_WS2812_WIDGET_CONN_COLOR_CONNECTED ∧
    (connectivity_pattern usb_env no_usb_config).color
      ≠ hex_to_rgb no_usb_config.CONFIG_WS2812_WIDGET_CONN_COLOR_USB := by
  decide

/-- C5 (amended): on a non-split or central build the pattern built by
`indicate_connectivity_internal` always has `duration_ms` the connectivity
blink time and `pause_ms` the interval time.  For the USB transport with
`CONFIG_WS2812_WIDGET_CONN_SHOW_USB` enabled it has `repeat_count` 1 and the
USB colour.  For the BLE transport, and for the USB transport without
`CONFIG_WS2812_WIDGET_CONN_SHOW_USB`, with `CONFIG_ZMK_BLE` enabled it has
for active profile index i the `repeat_count` i + 1 (as `uint8_t`; exactly
i + 1 for i < 255) and the colour connected if the profile is connected, else
advertising if it is open, else disconnected.  The pattern is what the
function hands to `k_msgq_put`. -/
theorem connectivity_pattern_central (env : widget_env) (cfg : widget_config)
    (hc : non_split_or_central cfg = true) :
    (connectivity_pattern env cfg).duration_ms
      = cfg.CONFIG_WS2812_WIDGET_CONN_BLINK_MS % 65536 ∧
    (connectivity_pattern env cfg).pause_ms
      = cfg.CONFIG_WS2812_WIDGET_INTERVAL_MS % 65536 ∧
    (env.zmk_endpoints_selected_transport = zmk_transport.ZMK_TRANSPORT_USB →
      cfg.CONFIG_WS2812_WIDGET_CONN_SHOW_USB = true →
      (connectivity_pattern env cfg).repeat_count = 1 ∧
      (connectivity_pattern env cfg).color
        = hex_to_rgb cfg.CONFIG_WS2812_WIDGET_CONN_COLOR_USB) ∧
    ((env.zmk_endpoints_selected_transport = zmk_transport.ZMK_TRANSPORT_BLE ∨
        cfg.CONFIG_WS2812_WIDGET_CONN_SHOW_USB = false) →
      cfg.CONFIG_ZMK_BLE = true →
      (connectivity_pattern env cfg).repeat_count
        = (env.zmk_ble_active_profile_index % 256 + 1) % 256 ∧
      (env.zmk_ble_active_profile_index < 255 →
        (connectivity_pattern env cfg).repeat_count
          = env.zmk_ble_active_profile_index + 1) ∧
      (connectivity_pattern env cfg).color
        = (if env.zmk_ble_active_profile_is_connected then
            hex_to_rgb cfg.CONFIG_WS2812_WIDGET_CONN_COLOR_CONNECTED
          else if env.zmk_ble_active_profile_is_open then
            hex_to_rgb cfg.CONFIG_WS2812_WIDGET_CONN_COLOR_ADVERTISING
          else hex_to_rgb cfg.CONFIG_WS2812_WIDGET_CONN_COLOR_DISCONNECTED)) ∧
    (∀ s, indicate_connectivity_internal env cfg s
      = k_msgq_put (connectivity_pattern env cfg) s) := by
  have hble : ∀ p : blink_pattern,
      (connectivity_ble_case env cfg p).duration_ms = p.duration_ms ∧
      (connectivity_ble_case env cfg p).pause_ms = p.pause_ms := by
    intro p
    unfold connectivity_ble_case
    cases cfg.CONFIG_ZMK_BLE <;> cases env.zmk_ble_active_profile_is_connected <;>
      cases env.zmk_ble_active_profile_is_open <;> simp
  have hble2 : cfg.CONFIG_ZMK_BLE = true → ∀ p : blink_pattern,
      (connectivity_ble_case env cfg p).repeat_count
        = (env.zmk_ble_active_profile_index % 256 + 1) % 256 ∧
      (connectivity_ble_case env cfg p).color
        = (if env.zmk_ble_active_profile_is_connected then
            hex_to_rgb cfg.CONFIG_WS2812_WIDGET_CONN_COLOR_CONNECTED
          else if env.zmk_ble_active_profile_is_open then
            hex_to_rgb cfg.CONFIG_WS2812_WIDGET_CONN_COLOR_ADVERTISING
          else hex_to_rgb cfg.CONFIG_WS2812_WIDGET_CONN_COLOR_DISCONNECTED) := by
    intro hb p
    unfold connectivity_ble_case
    cases env.zmk_ble_active_profile_is_connected <;>
      cases env.zmk_ble_active_profile_is_open <;> simp [hb, to_u8]
  have hsmall : env.zmk_ble_active_profile_index < 255 →
      (env.zmk_ble_active_profile_index % 256 + 1) % 256
        = env.zmk_ble_active_profile_index + 1 := by
    intro h
    omega
  refine ⟨?_, ?_, ?_, ?_, fun _ => rfl⟩
  · unfold connectivity_pattern
    simp only [hc, if_true]
    cases env.zmk_endpoints_selected_transport <;>
      cases cfg.CONFIG_WS2812_WIDGET_CONN_SHOW_USB <;> simp [hble, to_u16]
  · unfold connectivity_pattern
    simp only [hc, if_true]
    cases env.zmk_endpoints_selected_transport <;>
      cases cfg.CONFIG_WS2812_WIDGET_CONN_SHOW_USB <;> simp [hble, to_u16]
  · intro ht hu
    unfold connectivity_pattern
    simp [hc, ht, hu]
  · intro ht hb
    have key : (connectivity_pattern env cfg).repeat_count
          = (env.zmk_ble_active_profile_index % 256 + 1) % 256 ∧
        (connectivity_pattern env cfg).color
          = (if env.zmk_ble_active_profile_is_connected then
              hex_to_rgb cfg.CONFIG_WS2812_WIDGET_CONN_COLOR_CONNECTED
            else if env.zmk_ble_active_profile_is_open then
              hex_to_rgb cfg.CONFIG_WS2812_WIDGET_CONN_COLOR_ADVERTISING
            else hex_to_rgb cfg.CONFIG_WS2812_WIDGET_CONN_COLOR_DISCONNECTED) := by
      unfold connectivity_pattern
      simp only [hc, if_true]
      rcases ht with ht | hu
      · rw [ht]
        exact hble2 hb _
      · rw [hu]
        cases env.zmk_endpoints_selected_transport <;> exact hble2 hb _
    exact ⟨key.1, fun h => key.1.trans (hsmall h), key.2⟩

/-- Witness for C5 (amended): on the sample build the USB transport gives one
white flash, and BLE profile 2 connected gives three blue flashes; both last
1000 ms with a 500 ms pause. -/
theorem connectivity_pattern_central_witness :
    connectivity_pattern usb_env sample_config
      = { color := ⟨255, 255, 255⟩, duration_ms := 1000, pause_ms := 500, repeat_count := 1 } ∧
    (connectivity_pattern sample_env sample_config).repeat_count = 3 ∧
    (connectivity_pattern sample_env sample_config).color = ⟨0, 0, 255⟩ ∧
    (connectivity_pattern sample_env sample_config).duration_ms = 1000 ∧
    (connectivity_pattern sample_env sample_config).pause_ms = 500 := by
  have hu := connectivity_pattern_central usb_env sample_config rfl
  have hb := connectivity_pattern_central sample_env sample_config rfl
  have hu3 := hu.2.2.1 rfl rfl
  have hb4 := hb.2.2.2.1 (Or.inl rfl) rfl
  refine ⟨?_, (hb4.2.1 (by decide)).trans (by decide), hb4.2.2.trans (by decide),
    hb.1.trans (by decide), hb.2.1.trans (by decide)⟩
  decide

end Ws2812Widget
